import Mathlib

/-!
Verification development for the openUKR key-lifecycle engine.

The Go sources under pkg/crypto, pkg/rotation, pkg/publish and pkg/output
are shallowly embedded as executable Lean definitions.  External
collaborators (the secret writer, the entropy source, the X.509
marshaller, the keystore library) are modelled as explicit inputs whose
results are threaded through the control flow exactly as the Go code
threads the corresponding call results.  Machine integers are modelled as
Nat/Int with explicit reduction modulo 2^32 where the algorithms (SHA-256)
require wrap-around.
-/

set_option maxRecDepth 4000

namespace OpenUKR

/-! Byte-level helpers: SHA-256 and raw-URL base64, used by the
fingerprint engine (`crypto/sha256.Sum256`, `base64.RawURLEncoding`). -/

/-- Reduce a natural number to a 32-bit word. -/
def w32 (x : Nat) : Nat := x % 4294967296

/-- Rotate a 32-bit word right by n bits. -/
def rotr (n x : Nat) : Nat := w32 ((x >>> n) ||| (x <<< (32 - n)))

/-- Bitwise complement within 32 bits. -/
def compl32 (x : Nat) : Nat := 4294967295 - x

def sigma0 (x : Nat) : Nat := rotr 7 x ^^^ rotr 18 x ^^^ (x >>> 3)

def sigma1 (x : Nat) : Nat := rotr 17 x ^^^ rotr 19 x ^^^ (x >>> 10)

def bigSigma0 (x : Nat) : Nat := rotr 2 x ^^^ rotr 13 x ^^^ rotr 22 x

def bigSigma1 (x : Nat) : Nat := rotr 6 x ^^^ rotr 11 x ^^^ rotr 25 x

def chFn (x y z : Nat) : Nat := (x &&& y) ^^^ (compl32 x &&& z)

def majFn (x y z : Nat) : Nat := (x &&& y) ^^^ (x &&& z) ^^^ (y &&& z)

/-- SHA-256 round constants, in decimal. -/
def sha256K : List Nat := [
  1116352408, 1899447441, 3049323471, 3921009573, 961987163, 1508970993,
  2453635748, 2870763221, 3624381080, 310598401, 607225278, 1426881987,
  1925078388, 2162078206, 2614888103, 3248222580, 3835390401, 4022224774,
  264347078, 604807628, 770255983, 1249150122, 1555081692, 1996064986,
  2554220882, 2821834349, 2952996808, 3210313671, 3336571891, 3584528711,
  113926993, 338241895, 666307205, 773529912, 1294757372, 1396182291,
  1695183700, 1986661051, 2177026350, 2456956037, 2730485921, 2820302411,
  3259730800, 3345764771, 3516065817, 3600352804, 4094571909, 275423344,
  430227734, 506948616, 659060556, 883997877, 958139571, 1322822218,
  1537002063, 1747873779, 1955562222, 2024104815, 2227730452, 2361852424,
  2428436474, 2756734187, 3204031479, 3329325298
]

/-- SHA-256 initial hash state, in decimal. -/
def sha256H0 : List Nat :=
  [1779033703, 3144134277, 1013904242, 2773480762,
   1359893119, 2600822924, 528734635, 1541459225]

/-- Big-endian bytes of a natural number, n bytes wide. -/
def beBytes (n x : Nat) : List Nat :=
  (List.range n).map (fun i => (x >>> (8 * (n - 1 - i))) % 256)

/-- SHA-256 padding: append 0x80, zero bytes, and the 64-bit bit length. -/
def sha256Pad (msg : List Nat) : List Nat :=
  let padZeros := (119 - (msg.length % 64)) % 64
  msg ++ [0x80] ++ List.replicate padZeros 0 ++ beBytes 8 (msg.length * 8)

/-- Split a byte list into 64-byte blocks; the fuel argument is an upper
bound on the number of blocks so the recursion is structural. -/
def chunksAux : Nat → List Nat → List (List Nat)
  | 0, _ => []
  | _, [] => []
  | fuel + 1, x :: rest => ((x :: rest).take 64) :: chunksAux fuel ((x :: rest).drop 64)

/-- Split a byte list into 64-byte blocks. -/
def chunks64 (l : List Nat) : List (List Nat) := chunksAux l.length l

/-- Big-endian 32-bit word at word index i of a byte block. -/
def beWordAt (block : List Nat) (i : Nat) : Nat :=
  block.getD (4 * i) 0 * 16777216 + block.getD (4 * i + 1) 0 * 65536 +
    block.getD (4 * i + 2) 0 * 256 + block.getD (4 * i + 3) 0

/-- Extend the message schedule, keeping the words most-recent-first. -/
def sha256ExtendRev : Nat → List Nat → List Nat
  | 0, acc => acc
  | n + 1, acc =>
    let next := w32 (sigma1 (acc.getD 1 0) + acc.getD 6 0 +
      sigma0 (acc.getD 14 0) + acc.getD 15 0)
    sha256ExtendRev n (next :: acc)

/-- Expanded 64-word message schedule of one block. -/
def sha256Schedule (block : List Nat) : List Nat :=
  (sha256ExtendRev 48 (((List.range 16).map (beWordAt block)).reverse)).reverse

/-- One SHA-256 compression step. -/
def sha256Step (ws : List Nat) (st : Nat × Nat × Nat × Nat × Nat × Nat × Nat × Nat) (i : Nat) :
    Nat × Nat × Nat × Nat × Nat × Nat × Nat × Nat :=
  match st with
  | (a, b, c, d, e, f, g, h) =>
    let t1 := w32 (h + bigSigma1 e + chFn e f g + sha256K.getD i 0 + ws.getD i 0)
    let t2 := w32 (bigSigma0 a + majFn a b c)
    (w32 (t1 + t2), a, b, c, w32 (d + t1), e, f, g)

/-- Compress one 64-byte block into the running hash state. -/
def sha256Compress (hs : List Nat) (block : List Nat) : List Nat :=
  let ws : List Nat := sha256Schedule block
  let init := (hs.getD 0 0, hs.getD 1 0, hs.getD 2 0, hs.getD 3 0,
               hs.getD 4 0, hs.getD 5 0, hs.getD 6 0, hs.getD 7 0)
  match (List.range 64).foldl (sha256Step ws) init with
  | (a, b, c, d, e, f, g, h) =>
    [w32 (hs.getD 0 0 + a), w32 (hs.getD 1 0 + b), w32 (hs.getD 2 0 + c), w32 (hs.getD 3 0 + d),
     w32 (hs.getD 4 0 + e), w32 (hs.getD 5 0 + f), w32 (hs.getD 6 0 + g), w32 (hs.getD 7 0 + h)]

/-- SHA-256 of a byte list, as 32 bytes. -/
def sha256 (msg : List Nat) : List Nat :=
  let hs := (chunks64 (sha256Pad msg)).foldl sha256Compress sha256H0
  hs.foldr (fun h acc => beBytes 4 h ++ acc) []

/-- Alphabet of the URL-safe base64 variant. -/
def b64urlAlphabet : List Char :=
  "ABCDEFGHIJKLMNOPQRSTUVWXYZabcdefghijklmnopqrstuvwxyz0123456789-_".toList

def b64c (n : Nat) : Char := b64urlAlphabet.getD n 'A'

/-- Unpadded URL-safe base64 of a byte list (base64.RawURLEncoding). -/
def base64RawURLChars : List Nat → List Char
  | [] => []
  | [a] => [b64c (a >>> 2), b64c ((a % 4) <<< 4)]
  | [a, b] => [b64c (a >>> 2), b64c (((a % 4) <<< 4) ||| (b >>> 4)), b64c ((b % 16) <<< 2)]
  | a :: b :: c :: rest =>
    b64c (a >>> 2) :: b64c (((a % 4) <<< 4) ||| (b >>> 4)) ::
      b64c (((b % 16) <<< 2) ||| (c >>> 6)) :: b64c (c % 64) :: base64RawURLChars rest

def base64RawURL (bytes : List Nat) : String := String.mk (base64RawURLChars bytes)

/-- Hex rendering of a byte list (for test vectors). -/
def hexDigit (n : Nat) : Char := "0123456789abcdef".toList.getD n '0'

def bytesToHex (bytes : List Nat) : String :=
  String.mk (bytes.foldr (fun b acc => hexDigit (b / 16) :: hexDigit (b % 16) :: acc) [])

/-- Model of Go strconv.Atoi: optional sign, one or more decimal digits,
64-bit range check. -/
def atoi (s : String) : Option Int :=
  match s.toList with
  | [] => none
  | c :: rest =>
    let signNeg : Bool := c = '-'
    let digits : List Char := if c = '-' ∨ c = '+' then rest else c :: rest
    if digits = [] then none
    else if digits.all Char.isDigit then
      let n : Nat := digits.foldl (fun acc d => acc * 10 + (d.toNat - 48)) 0
      let v : Int := if signNeg then -(n : Int) else (n : Int)
      if v < -9223372036854775808 ∨ 9223372036854775807 < v then none else some v
    else none

/-! Embedding of pkg/crypto validate.go: the shared validation rule set. -/

/-- Lookup in a Go map modelled as an association list; a missing key
yields the zero value "", as Go map indexing does. -/
def lookupParam (params : List (String × String)) (k : String) : String :=
  ((params.find? (fun p => p.1 == k)).map Prod.snd).getD ""

def validCurves : List String := ["P-256", "P-384", "P-521"]

def validRSAKeySizes : List Int := [2048, 3072, 4096]

/-- RSAMinKeySize is the absolute minimum accepted key size. -/
def RSAMinKeySize : Int := 2048

/-- RSARecommendedMinKeySize is the minimum per BSI TR-02102-1 (2025+). -/
def RSARecommendedMinKeySize : Int := 3072

/-- Wrap a string in double quotes, as Go %q formatting does. -/
def quoteStr (s : String) : String := "\"" ++ s ++ "\""

/-- Embedding of validateEC: requires a known named curve.  Returns the
Go pair (warnings, error). -/
def validateEC (params : List (String × String)) : List String × Option String :=
  let curve := lookupParam params "curve"
  if curve = "" then
    ([], some "EC algorithm requires \x27curve\x27 parameter")
  else if validCurves.contains curve then ([], none)
  else
    ([], some ("unsupported EC curve " ++ quoteStr curve ++ ", must be one of: P-256, P-384, P-521"))

/-- Embedding of validateRSA: keySize must parse, be one of
{2048, 3072, 4096}, respect the absolute floor, and sizes below 3072
require the legacy opt-in and carry a deprecation warning. -/
def validateRSA (params : List (String × String)) (allowLegacy : Bool) :
    List String × Option String :=
  let keySizeStr := lookupParam params "keySize"
  if keySizeStr = "" then
    ([], some "RSA algorithm requires \x27keySize\x27 parameter")
  else
    match atoi keySizeStr with
    | none => ([], some ("invalid RSA keySize " ++ quoteStr keySizeStr))
    | some keySize =>
      if validRSAKeySizes.contains keySize = false then
        ([], some ("unsupported RSA keySize " ++ toString keySize ++
          ", must be one of: 2048, 3072, 4096"))
      else if keySize < RSAMinKeySize then
        ([], some ("RSA keySize " ++ toString keySize ++ " is below absolute minimum " ++
          toString RSAMinKeySize))
      else if keySize < RSARecommendedMinKeySize then
        if allowLegacy = false then
          ([], some ("RSA keySize " ++ toString keySize ++
            " is deprecated per BSI TR-02102-1 (2025): " ++
            "set allowLegacyKeySize=true to override, or use >= " ++
            toString RSARecommendedMinKeySize))
        else
          (["RSA keySize " ++ toString keySize ++
            " is deprecated per BSI TR-02102-1 (2025). Migrate to >= " ++
            toString RSARecommendedMinKeySize ++ " or EC P-256."], none)
      else ([], none)

/-- Embedding of ValidateKeySpec: the single source of truth for
algorithm validation, dispatching on the algorithm name. -/
def ValidateKeySpec (algorithm : String) (params : List (String × String))
    (allowLegacy : Bool) : List String × Option String :=
  if algorithm = "EC" then validateEC params
  else if algorithm = "RSA" then validateRSA params allowLegacy
  else ([], some ("unsupported algorithm " ++ quoteStr algorithm ++ ", must be one of: EC, RSA"))

/-! Embedding of pkg/crypto keypair/generator and fingerprint code. -/

/-- Model of a Go crypto.PublicKey: its only observable in this
development is the result of x509.MarshalPKIXPublicKey, either the DER
bytes or a marshalling failure. -/
structure PubKeyModel where
  der : Option (List Nat)
deriving DecidableEq, Repr

/-- Model of the private-key structures whose scalars Wipe zeroes:
the EC private scalar D, or the RSA private exponent D and primes. -/
inductive PrivKeyModel where
  | ec (d : Int)
  | rsa (d : Int) (primes : List Int)
deriving DecidableEq, Repr

/-- Model of crypto.KeyPair.  The interface-typed private/public fields
are Options (none models a nil interface); rawPrivateBytes is the
retained DER buffer kept solely for Wipe. -/
structure KeyPair where
  keyID : String
  privateKey : Option PrivKeyModel
  publicKey : Option PubKeyModel
  algorithm : String
  createdAt : Int
  rawPrivateBytes : List Nat
deriving DecidableEq, Repr

/-- Observable outcome of KeyPair.Wipe: the post-state of the KeyPair
itself, the final contents of the heap buffer that rawPrivateBytes
pointed to, and the final state of the heap private-key object the
privateKey field pointed to. -/
structure WipeOutput where
  kp : KeyPair
  buffer : List Nat
  priv : Option PrivKeyModel
deriving DecidableEq, Repr

/-- Scalar zeroing performed by the switch in Wipe: EC sets D to 0;
RSA sets D to 0 and every prime factor to 0. -/
def zeroScalars : PrivKeyModel → PrivKeyModel
  | .ec _ => .ec 0
  | .rsa _ primes => .rsa 0 (primes.map (fun _ => 0))

/-- Embedding of KeyPair.Wipe on a non-nil receiver: zero the raw DER
buffer in place then drop the reference, zero the exposed scalars of the
private key object, then clear the private/public references. -/
def KeyPair.wipe (kp : KeyPair) : WipeOutput :=
  { kp := { kp with rawPrivateBytes := [], privateKey := none, publicKey := none }
    buffer := kp.rawPrivateBytes.map (fun _ => 0)
    priv := kp.privateKey.map zeroScalars }

/-- Embedding of KeyPair.Wipe including the nil-receiver guard. -/
def wipeOpt : Option KeyPair → Option WipeOutput
  | none => none
  | some kp => some kp.wipe

/-- FingerprintPrefix constant; the canonical fingerprint header. -/
def fingerprintHeader : String := "SHA256:"

/-- Embedding of ComputeFingerprint: nil check, DER marshalling of the
public key, SHA-256, unpadded URL base64, fixed header. -/
def ComputeFingerprint (pubKey : Option PubKeyModel) : Except String String :=
  match pubKey with
  | none => .error "cannot compute fingerprint: public key is nil"
  | some p =>
    match p.der with
    | none => .error "marshal public key to DER"
    | some derBytes => .ok (fingerprintHeader ++ base64RawURL (sha256 derBytes))

/-- GenerateOptions for key generation. -/
structure GenerateOptions where
  algorithm : String
  params : List (String × String)
  allowLegacyKeySize : Bool

/-- Embedding of defaultGenerator.Generate.  The two entropy-consuming
branches generateEC and generateRSA are supplied as inputs (they wrap
the external cryptographic randomness source); the Bool records whether
the dispatch reached one of them, i.e. whether generation was attempted. -/
def Generate (genEC genRSA : GenerateOptions → Except String KeyPair)
    (opts : GenerateOptions) : Except String KeyPair × Bool :=
  match (ValidateKeySpec opts.algorithm opts.params opts.allowLegacyKeySize).2 with
  | some e => (.error ("key generation validation failed: " ++ e), false)
  | none =>
    if opts.algorithm = "EC" then (genEC opts, true)
    else if opts.algorithm = "RSA" then (genRSA opts, true)
    else (.error ("unsupported algorithm: " ++ opts.algorithm), false)

/-! Embedding of pkg/publish manager.go. -/

instance {α β : Type} [DecidableEq α] [DecidableEq β] : DecidableEq (Except α β) := fun x y =>
  match x, y with
  | .error a, .error b =>
    if h : a = b then .isTrue (by rw [h]) else .isFalse (by intro hc; cases hc; exact h rfl)
  | .error _, .ok _ => .isFalse (by intro hc; cases hc)
  | .ok _, .error _ => .isFalse (by intro hc; cases hc)
  | .ok a, .ok b =>
    if h : a = b then .isTrue (by rw [h]) else .isFalse (by intro hc; cases hc; exact h rfl)

/-- Model of a publish target: its declared type together with the
result the typed publisher's Publish call would return for it (the
publisher implementations are external effects). -/
structure PublishTarget where
  type : String
  outcome : Except String Unit
deriving DecidableEq, Repr

/-- Publisher types registered by NewManager. -/
def registeredPublisherTypes : List String := ["filesystem", "http"]

/-- Embedding of the PublishAll loop, carrying the running index: for
each target, look up a publisher by type (unknown types are recorded as
failures), invoke it, and record any failure tagged with index and type.
Returns the collected error strings and the indices of the targets whose
publisher was actually invoked. -/
def publishLoop : Nat → List PublishTarget → List String × List Nat
  | _, [] => ([], [])
  | i, t :: rest =>
    if registeredPublisherTypes.contains t.type then
      match t.outcome with
      | .error e =>
        let r := publishLoop (i + 1) rest
        (("target[" ++ toString i ++ "] (" ++ t.type ++ ") failed: " ++ e) :: r.1, i :: r.2)
      | .ok _ =>
        let r := publishLoop (i + 1) rest
        (r.1, i :: r.2)
    else
      let r := publishLoop (i + 1) rest
      (("target[" ++ toString i ++ "]: unknown publisher type " ++ quoteStr t.type) :: r.1, r.2)

/-- Embedding of Manager.PublishAll: attempt every target, then return
nil if no errors were collected, else a single aggregate error. -/
def PublishAll (targets : List PublishTarget) : Except String Unit :=
  let errs := (publishLoop 0 targets).1
  if errs.isEmpty then .ok () else .error ("publish errors: " ++ toString errs)

/-! Embedding of pkg/rotation manager.go. -/

structure KeySpec where
  algorithm : String
  params : List (String × String)
  allowLegacyKeySize : Bool
deriving Repr

/-- Rotation policy; the interval is a Go time.Duration in nanoseconds. -/
structure RotationPolicy where
  interval : Int
deriving Repr

structure KeyProfileSpec where
  keySpec : KeySpec
  rotation : RotationPolicy
  publish : List PublishTarget
deriving Repr

/-- Profile status subset read by the manager.  lastRotation models the
*metav1.Time pointer: none is a nil pointer; time instants are Int
nanoseconds with 0 standing for the zero time.Time. -/
structure KeyProfileStatus where
  currentKeyID : String
  currentKeyFingerprint : String
  lastRotation : Option Int
deriving Repr

structure KeyProfile where
  spec : KeyProfileSpec
  status : KeyProfileStatus
deriving Repr

/-- Model of (*metav1.Time).IsZero: true for a nil pointer or the zero
time instant. -/
def metavIsZero : Option Int → Bool
  | none => true
  | some t => t == 0

/-- Model of reading the .Time field of a recorded *metav1.Time. -/
def metavTime : Option Int → Int
  | none => 0
  | some t => t

/-- Embedding of checkRotationNeeded.  Case 0: no key or no recorded
last rotation.  Case 1: interval 0 disables rotation; otherwise rotate
when now is strictly after lastRotation + interval.  The duration/time
renderings used inside the reason string (Go %s formatting) are supplied
as inputs. -/
def checkRotationNeeded (fmtDuration fmtTime : Int → String) (profile : KeyProfile)
    (now : Int) : Bool × String :=
  if profile.status.currentKeyID = "" ∨ metavIsZero profile.status.lastRotation then
    (true, "initial key generation")
  else
    let interval := profile.spec.rotation.interval
    if interval = 0 then
      (false, "rotation disabled (interval=0)")
    else
      let nextRotationDue := metavTime profile.status.lastRotation + interval
      if nextRotationDue < now then
        (true, "interval " ++ fmtDuration interval ++ " expired (due: " ++
          fmtTime nextRotationDue ++ ")")
      else (false, "")

/-- Embedding of calculateNextRotation; the zero time (0) is the
"no next rotation" sentinel. -/
def calculateNextRotation (lastRot interval : Int) : Int :=
  if interval = 0 then 0 else lastRot + interval

/-- Result record returned by EnsureKey. -/
structure RotationResult where
  rotated : Bool
  keyID : String
  rotationTime : Int
  nextRotationTime : Int
  fingerprint : String
deriving DecidableEq, Repr

/-- Side-effecting steps of one EnsureKey invocation, in the order the
trace records them. -/
inductive Event where
  | generate
  | publish
  | persist
  | wipe
deriving DecidableEq, BEq, Repr

/-- Embedding of manager.EnsureKey.  The key generator result and the
secret writer result are supplied as inputs (both wrap external
effects); publishing is the embedded PublishAll over the profile's
targets.  Alongside the Go return value, the model returns the trace of
effectful steps the invocation performed: the deferred Wipe runs on
every exit path after a successful generation. -/
def EnsureKey (fmtDuration fmtTime : Int → String) (profile : KeyProfile) (now : Int)
    (genResult : Except String KeyPair) (writeResult : Except String Unit) :
    Except String RotationResult × List Event :=
  let check := checkRotationNeeded fmtDuration fmtTime profile now
  if check.1 = false then
    let nextRot := calculateNextRotation (metavTime profile.status.lastRotation)
      profile.spec.rotation.interval
    (.ok { rotated := false
           keyID := profile.status.currentKeyID
           rotationTime := metavTime profile.status.lastRotation
           nextRotationTime := nextRot
           fingerprint := profile.status.currentKeyFingerprint }, [])
  else
    match genResult with
    | .error e => (.error ("key generation failed: " ++ e), [.generate])
    | .ok kp =>
      match ComputeFingerprint kp.publicKey with
      | .error e => (.error ("fingerprint computation failed: " ++ e), [.generate, .wipe])
      | .ok fingerprint =>
        match PublishAll profile.spec.publish with
        | .error e =>
          (.error ("failed to publish public key: " ++ e), [.generate, .publish, .wipe])
        | .ok _ =>
          match writeResult with
          | .error e =>
            (.error ("failed to persist key material: " ++ e),
             [.generate, .publish, .persist, .wipe])
          | .ok _ =>
            let nextRot := calculateNextRotation now profile.spec.rotation.interval
            (.ok { rotated := true
                   keyID := kp.keyID
                   rotationTime := now
                   nextRotationTime := nextRot
                   fingerprint := fingerprint }, [.generate, .publish, .persist, .wipe])

/-! Embedding of pkg/output renderer.go. -/

/-- Render options: output format, JKS password, and the JKS alias
(the Go field Alias; renamed here because alias is a Lean keyword). -/
structure RenderOptions where
  format : String
  password : String
  aliasName : String
deriving Repr

/-- Results of the external PEM encoder calls made at the top of Render
(crypto.NewKeyEncoder("PEM") then EncodePrivate/EncodePublic). -/
structure EncoderResults where
  privPEM : Except String (List Nat)
  pubPEM : Except String (List Nat)

/-- Results of the external calls made by renderJKS, in call order:
self-signed certificate creation, PKCS#8 marshalling of the private key,
SetPrivateKeyEntry on the keystore, and Store serialization. -/
structure KeystoreResults where
  certBytes : Except String (List Nat)
  pkcs8Bytes : Except String (List Nat)
  setEntryErr : Option String
  storeBytes : Except String (List Nat)

/-- Embedding of defaultRenderer.renderJKS.  Besides the Go return value
(the rendered bundle or an error), the model records which alias was
passed to SetPrivateKeyEntry, when that call was reached. -/
def renderJKS (ks : KeystoreResults) (opts : RenderOptions) :
    Except String (List (String × List Nat)) × Option String :=
  if opts.password = "" then
    (.error "password is required for JKS format", none)
  else
    let usedAlias := if opts.aliasName = "" then "openukr-key" else opts.aliasName
    match ks.certBytes with
    | .error e => (.error ("failed to generate self-signed cert for JKS: " ++ e), none)
    | .ok _ =>
      match ks.pkcs8Bytes with
      | .error e => (.error ("failed to marshal private key for JKS: " ++ e), none)
      | .ok _ =>
        match ks.setEntryErr with
        | some e => (.error ("failed to set private key entry in JKS: " ++ e), some usedAlias)
        | none =>
          match ks.storeBytes with
          | .error e => (.error ("failed to store JKS: " ++ e), some usedAlias)
          | .ok bytes => (.ok [("keystore.jks", bytes)], some usedAlias)

/-- Embedding of defaultRenderer.Render: nil check, PEM encoding of both
halves, then dispatch on the requested format. -/
def Render (enc : EncoderResults) (ks : KeystoreResults) (kp : Option KeyPair)
    (opts : RenderOptions) : Except String (List (String × List Nat)) × Option String :=
  match kp with
  | none => (.error "cannot render nil KeyPair", none)
  | some _ =>
    match enc.privPEM with
    | .error e => (.error ("failed to encode private key: " ++ e), none)
    | .ok privPEM =>
      match enc.pubPEM with
      | .error e => (.error ("failed to encode public key: " ++ e), none)
      | .ok pubPEM =>
        if opts.format = "split-pem" then
          (.ok [("tls.key", privPEM), ("tls.crt", pubPEM), ("public.pem", pubPEM)], none)
        else if opts.format = "single-pem" then
          (.ok [("keypair.pem", privPEM ++ pubPEM)], none)
        else if opts.format = "jks" then
          renderJKS ks opts
        else (.error ("unsupported output format: " ++ opts.format), none)

/-! Concrete fixtures used by witness theorems. -/

/-- Profile with a current key, a recorded last rotation, and rotation
disabled by interval 0. -/
def fixtureProfileDisabled : KeyProfile :=
  { spec := { keySpec := { algorithm := "EC", params := [("curve", "P-256")],
                           allowLegacyKeySize := false }
              rotation := { interval := 0 }
              publish := [] }
    status := { currentKeyID := "ec-P-256-20260101-0a1b2c"
                currentKeyFingerprint := "SHA256:dGVzdA"
                lastRotation := some 1000 } }

/-- Profile with no current key, so rotation is always needed; one
succeeding filesystem publish target. -/
def fixtureProfileNew : KeyProfile :=
  { spec := { keySpec := { algorithm := "EC", params := [("curve", "P-256")],
                           allowLegacyKeySize := false }
              rotation := { interval := 3600000000000 }
              publish := [{ type := "filesystem", outcome := .ok () }] }
    status := { currentKeyID := ""
                currentKeyFingerprint := ""
                lastRotation := none } }

/-- Freshly generated key pair with serializable public material. -/
def fixtureKeyPair : KeyPair :=
  { keyID := "ec-P-256-20260101-0a1b2c"
    privateKey := some (.ec 7)
    publicKey := some { der := some [48, 89, 1, 2] }
    algorithm := "EC"
    createdAt := 5
    rawPrivateBytes := [1, 2, 3] }

/-! Claim theorems. -/

lemma map_zero_eq_replicate (l : List Nat) :
    l.map (fun _ => 0) = List.replicate l.length 0 := by
  induction l with
  | nil => rfl
  | cons x xs ih => simp [ih, List.replicate]

/-- C8: calculateNextRotation is total: interval 0 yields the zero-time
sentinel (and the decision engine never rotates on the timed rule when a
key and a last rotation are recorded), and a positive interval yields
exactly lastRotation + interval. -/
theorem nextRotation_spec (lastRot interval : Int) :
    (interval = 0 → calculateNextRotation lastRot interval = 0) ∧
    (0 < interval → calculateNextRotation lastRot interval = lastRot + interval) ∧
    (∀ (fmtD fmtT : Int → String) (profile : KeyProfile) (now : Int),
      profile.spec.rotation.interval = 0 →
      profile.status.currentKeyID ≠ "" →
      metavIsZero profile.status.lastRotation = false →
      (checkRotationNeeded fmtD fmtT profile now).1 = false) := by
  refine ⟨fun h => by simp [calculateNextRotation, h], ?_, ?_⟩
  · intro h
    rw [calculateNextRotation, if_neg (by omega)]
  · intro fmtD fmtT profile now h0 h1 h2
    simp [checkRotationNeeded, h0, h1, h2]

/-- Witness for C8 at interval 0 and interval 7, and at a profile with
rotation disabled. -/
theorem nextRotation_spec_witness :
    calculateNextRotation 5 0 = 0 ∧ calculateNextRotation 5 7 = 5 + 7 ∧
    (checkRotationNeeded (fun _ => "") (fun _ => "") fixtureProfileDisabled 99).1 = false :=
  ⟨(nextRotation_spec 5 0).1 rfl, (nextRotation_spec 5 7).2.1 (by norm_num),
   (nextRotation_spec 0 0).2.2 _ _ fixtureProfileDisabled 99 rfl (by decide) (by decide)⟩

/-- C5: ComputeFingerprint is deterministic and, for every public key
that serializes to DER, returns the fixed prefix followed by the
unpadded URL base64 of the SHA-256 of the DER bytes; it errors exactly
when the key is nil or cannot be serialized. -/
theorem computeFingerprint_spec (pub : Option PubKeyModel) :
    (∀ p der, pub = some p → p.der = some der →
      ComputeFingerprint pub = .ok (fingerprintHeader ++ base64RawURL (sha256 der))) ∧
    (∀ pub2 : Option PubKeyModel, pub = pub2 →
      ComputeFingerprint pub = ComputeFingerprint pub2) ∧
    ((∃ e, ComputeFingerprint pub = .error e) ↔
      (pub = none ∨ ∃ p, pub = some p ∧ p.der = none)) := by
  refine ⟨?_, fun pub2 h => by rw [h], ?_⟩
  · intro p der hp hder
    subst hp
    simp [ComputeFingerprint, hder]
  · match pub with
    | none => simp [ComputeFingerprint]
    | some p =>
      match hder : p.der with
      | none => simp [ComputeFingerprint, hder]
      | some d => simp [ComputeFingerprint, hder]

/-- Witness for C5: the fingerprint of the bytes "abc" evaluated in
full, matching the SHA-256 test vector. -/
theorem computeFingerprint_spec_witness :
    ComputeFingerprint (some { der := some [97, 98, 99] }) =
      .ok "SHA256:ungWv48Bz-pBQUDeXa4iI7ADYaOWF3qctBD_YfIAFa0" := by
  have h := (computeFingerprint_spec (some { der := some [97, 98, 99] })).1
    { der := some [97, 98, 99] } [97, 98, 99] rfl rfl
  rw [h]
  decide

/-- C6: Wipe is idempotent and total: a nil KeyPair is a no-op, wiping
twice equals wiping once, the retained raw buffer is overwritten with
zeros, the exposed private scalars are zeroed, and the private/public
references are cleared. -/
theorem wipe_spec (kp : KeyPair) :
    (wipeOpt none = none) ∧
    ((kp.wipe.kp).wipe.kp = kp.wipe.kp) ∧
    ((kp.wipe.kp).wipe.buffer = []) ∧
    (kp.wipe.buffer = List.replicate kp.rawPrivateBytes.length 0) ∧
    (∀ d, kp.privateKey = some (.ec d) → kp.wipe.priv = some (.ec 0)) ∧
    (∀ d ps, kp.privateKey = some (.rsa d ps) →
      kp.wipe.priv = some (.rsa 0 (List.replicate ps.length 0))) ∧
    (kp.wipe.kp.privateKey = none ∧ kp.wipe.kp.publicKey = none) := by
  refine ⟨rfl, rfl, rfl, map_zero_eq_replicate _, ?_, ?_, rfl, rfl⟩
  · intro d h
    simp [KeyPair.wipe, h, zeroScalars]
  · intro d ps h
    simp [KeyPair.wipe, h, zeroScalars, map_zero_eq_replicate]

/-- Witness for C6 at a concrete EC key pair. -/
theorem wipe_spec_witness :
    fixtureKeyPair.wipe.buffer = List.replicate 3 0 ∧
    fixtureKeyPair.wipe.priv = some (.ec 0) := by
  have h := wipe_spec fixtureKeyPair
  exact ⟨h.2.2.2.1, h.2.2.2.2.1 7 rfl⟩

/-- C10: when the rotation decision is negative, EnsureKey performs no
side-effecting step and returns the existing status fields unchanged,
with the next rotation computed from the stored last rotation and the
policy interval. -/
theorem ensureKey_noRotation_frame (fmtD fmtT : Int → String) (profile : KeyProfile)
    (now : Int) (genResult : Except String KeyPair) (writeResult : Except String Unit) :
    (checkRotationNeeded fmtD fmtT profile now).1 = false →
    EnsureKey fmtD fmtT profile now genResult writeResult =
      (.ok { rotated := false
             keyID := profile.status.currentKeyID
             rotationTime := metavTime profile.status.lastRotation
             nextRotationTime := calculateNextRotation (metavTime profile.status.lastRotation)
               profile.spec.rotation.interval
             fingerprint := profile.status.currentKeyFingerprint }, []) := by
  intro h
  simp [EnsureKey, h]

/-- Witness for C10 at the rotation-disabled fixture profile. -/
theorem ensureKey_noRotation_frame_witness :
    EnsureKey (fun _ => "") (fun _ => "") fixtureProfileDisabled 99
      (.error "unused") (.ok ()) =
      (.ok { rotated := false
             keyID := "ec-P-256-20260101-0a1b2c"
             rotationTime := 1000
             nextRotationTime := 0
             fingerprint := "SHA256:dGVzdA" }, []) := by
  rw [ensureKey_noRotation_frame (fun _ => "") (fun _ => "") fixtureProfileDisabled 99
    (.error "unused") (.ok ()) (by decide)]
  decide

lemma validateKeySpec_ok_algorithm (a : String) (p : List (String × String)) (l : Bool) :
    (ValidateKeySpec a p l).2 = none → a = "EC" ∨ a = "RSA" := by
  intro h
  by_cases h1 : a = "EC"
  · exact Or.inl h1
  · by_cases h2 : a = "RSA"
    · exact Or.inr h2
    · simp [ValidateKeySpec, h1, h2] at h

/-- C3: Generate gates on exactly the shared ValidateKeySpec rule set: a
spec ValidateKeySpec rejects makes Generate return the validation error
with no key pair and no generation attempted, and a spec ValidateKeySpec
accepts always reaches the algorithm-specific generation step. -/
theorem generate_validation_spec (genEC genRSA : GenerateOptions → Except String KeyPair)
    (opts : GenerateOptions) :
    (∀ e, (ValidateKeySpec opts.algorithm opts.params opts.allowLegacyKeySize).2 = some e →
      Generate genEC genRSA opts =
        (.error ("key generation validation failed: " ++ e), false)) ∧
    ((ValidateKeySpec opts.algorithm opts.params opts.allowLegacyKeySize).2 = none →
      (Generate genEC genRSA opts).2 = true ∧
      (Generate genEC genRSA opts).1 =
        (if opts.algorithm = "EC" then genEC opts else genRSA opts)) := by
  constructor
  · intro e he
    simp [Generate, he]
  · intro h
    have halg := validateKeySpec_ok_algorithm _ _ _ h
    rcases halg with h1 | h1
    · rw [h1] at h
      simp [Generate, h, h1]
    · rw [h1] at h
      simp [Generate, h, h1]

/-- Witness for C3: a rejected RSA spec (keySize 1024) stops before
generation, and an accepted EC spec reaches the EC generator. -/
theorem generate_validation_spec_witness :
    Generate (fun _ => .ok fixtureKeyPair) (fun _ => .error "rng")
        { algorithm := "RSA", params := [("keySize", "1024")], allowLegacyKeySize := true } =
      (.error ("key generation validation failed: " ++
        "unsupported RSA keySize 1024, must be one of: 2048, 3072, 4096"), false) ∧
    (Generate (fun _ => .ok fixtureKeyPair) (fun _ => .error "rng")
        { algorithm := "EC", params := [("curve", "P-256")], allowLegacyKeySize := false }).2
      = true := by
  constructor
  · exact (generate_validation_spec (fun _ => .ok fixtureKeyPair) (fun _ => .error "rng")
      { algorithm := "RSA", params := [("keySize", "1024")], allowLegacyKeySize := true }).1
      _ (by decide)
  · exact ((generate_validation_spec (fun _ => .ok fixtureKeyPair) (fun _ => .error "rng")
      { algorithm := "EC", params := [("curve", "P-256")], allowLegacyKeySize := false }).2
      (by decide)).1

/-- C9: rendering a non-nil KeyPair as jks with an empty password
returns an error and produces no bundle, and with a non-empty password
and an empty alias the keystore entry is created under the fixed alias
"openukr-key". -/
theorem render_jks_spec (enc : EncoderResults) (ks : KeystoreResults) (kp : KeyPair)
    (opts : RenderOptions) :
    opts.format = "jks" →
    (opts.password = "" → ∃ e, (Render enc ks (some kp) opts).1 = .error e) ∧
    (opts.password ≠ "" → opts.aliasName = "" →
      ∀ a, (Render enc ks (some kp) opts).2 = some a → a = "openukr-key") := by
  intro hfmt
  constructor
  · intro hpw
    rcases hpriv : enc.privPEM with e | priv
    · exact ⟨"failed to encode private key: " ++ e, by simp [Render, hpriv]⟩
    rcases hpub : enc.pubPEM with e | pub
    · exact ⟨"failed to encode public key: " ++ e, by simp [Render, hpriv, hpub]⟩
    exact ⟨"password is required for JKS format",
      by simp [Render, renderJKS, hpriv, hpub, hfmt, hpw]⟩
  · intro hpw halias a ha
    rcases hpriv : enc.privPEM with e | priv
    · simp [Render, hpriv] at ha
    rcases hpub : enc.pubPEM with e | pub
    · simp [Render, hpriv, hpub] at ha
    rcases hcert : ks.certBytes with e | cb
    · simp [Render, renderJKS, hpriv, hpub, hfmt, hpw, hcert] at ha
    rcases hpk : ks.pkcs8Bytes with e | pk
    · simp [Render, renderJKS, hpriv, hpub, hfmt, hpw, hcert, hpk] at ha
    rcases hset : ks.setEntryErr with _ | e
    · rcases hst : ks.storeBytes with e | sb
      · simp [Render, renderJKS, hpriv, hpub, hfmt, hpw, halias, hcert, hpk, hset, hst] at ha
        exact ha.symm
      · simp [Render, renderJKS, hpriv, hpub, hfmt, hpw, halias, hcert, hpk, hset, hst] at ha
        exact ha.symm
    · simp [Render, renderJKS, hpriv, hpub, hfmt, hpw, halias, hcert, hpk, hset] at ha
      exact ha.symm

/-- Witness for C9: both branches at concrete inputs. -/
theorem render_jks_spec_witness :
    (∃ e, (Render { privPEM := .ok [1], pubPEM := .ok [2] }
      { certBytes := .ok [3], pkcs8Bytes := .ok [4], setEntryErr := none, storeBytes := .ok [5] }
      (some fixtureKeyPair)
      { format := "jks", password := "", aliasName := "" }).1 = .error e) ∧
    (∀ a, (Render { privPEM := .ok [1], pubPEM := .ok [2] }
      { certBytes := .ok [3], pkcs8Bytes := .ok [4], setEntryErr := none, storeBytes := .ok [5] }
      (some fixtureKeyPair)
      { format := "jks", password := "changeit", aliasName := "" }).2 = some a →
      a = "openukr-key") := by
  constructor
  · exact (render_jks_spec { privPEM := .ok [1], pubPEM := .ok [2] }
      { certBytes := .ok [3], pkcs8Bytes := .ok [4], setEntryErr := none, storeBytes := .ok [5] }
      fixtureKeyPair { format := "jks", password := "", aliasName := "" } rfl).1 rfl
  · exact (render_jks_spec { privPEM := .ok [1], pubPEM := .ok [2] }
      { certBytes := .ok [3], pkcs8Bytes := .ok [4], setEntryErr := none, storeBytes := .ok [5] }
      fixtureKeyPair { format := "jks", password := "changeit", aliasName := "" } rfl).2
      (by decide) rfl

/-- Counterexample for C2 as stated: on a profile with no current key
the decision is rotate, but the reason string is "initial key
generation", not the claimed "initial generation". -/
theorem checkRotationNeeded_initial_reason_counterexample :
    checkRotationNeeded (fun _ => "") (fun _ => "")
        { spec := { keySpec := { algorithm := "EC", params := [], allowLegacyKeySize := false }
                    rotation := { interval := 0 }
                    publish := [] }
          status := { currentKeyID := "", currentKeyFingerprint := "", lastRotation := none } }
        0 =
      (true, "initial key generation") ∧
    ¬ (checkRotationNeeded (fun _ => "") (fun _ => "")
        { spec := { keySpec := { algorithm := "EC", params := [], allowLegacyKeySize := false }
                    rotation := { interval := 0 }
                    publish := [] }
          status := { currentKeyID := "", currentKeyFingerprint := "", lastRotation := none } }
        0).2 =
      "initial generation" := by
  constructor
  · decide
  · decide

/-- C2 (amended: the initial-generation reason string is "initial key
generation"): the rotation decision applies, in order, the no-key rule,
the interval-0 rule, and the strict overdue comparison, with the claimed
24h/25h/23h instances. -/
theorem checkRotationNeeded_spec (fmtD fmtT : Int → String) (profile : KeyProfile)
    (now : Int) :
    (profile.status.currentKeyID = "" ∨ metavIsZero profile.status.lastRotation = true →
      checkRotationNeeded fmtD fmtT profile now = (true, "initial key generation")) ∧
    (profile.status.currentKeyID ≠ "" → metavIsZero profile.status.lastRotation = false →
      profile.spec.rotation.interval = 0 →
      (checkRotationNeeded fmtD fmtT profile now).1 = false) ∧
    (profile.status.currentKeyID ≠ "" → metavIsZero profile.status.lastRotation = false →
      profile.spec.rotation.interval ≠ 0 →
      metavTime profile.status.lastRotation + profile.spec.rotation.interval < now →
      (checkRotationNeeded fmtD fmtT profile now).1 = true ∧
      ∃ s1 s2, (checkRotationNeeded fmtD fmtT profile now).2 =
        s1 ++ fmtT (metavTime profile.status.lastRotation + profile.spec.rotation.interval)
          ++ s2) ∧
    (profile.status.currentKeyID ≠ "" → metavIsZero profile.status.lastRotation = false →
      profile.spec.rotation.interval ≠ 0 →
      ¬ metavTime profile.status.lastRotation + profile.spec.rotation.interval < now →
      checkRotationNeeded fmtD fmtT profile now = (false, "")) ∧
    (∀ T : Int, T ≠ 0 → profile.status.lastRotation = some T →
      profile.status.currentKeyID ≠ "" →
      profile.spec.rotation.interval = 24 * 3600000000000 →
      (checkRotationNeeded fmtD fmtT profile (T + 25 * 3600000000000)).1 = true ∧
      (checkRotationNeeded fmtD fmtT profile (T + 23 * 3600000000000)).1 = false) := by
  refine ⟨?_, ?_, ?_, ?_, ?_⟩
  · intro h
    rcases h with h | h
    · simp [checkRotationNeeded, h]
    · simp [checkRotationNeeded, h]
  · intro h1 h2 h3
    simp [checkRotationNeeded, h1, h2, h3]
  · intro h1 h2 h3 h4
    constructor
    · simp [checkRotationNeeded, h1, h2, h3, h4]
    · refine ⟨"interval " ++ fmtD profile.spec.rotation.interval ++ " expired (due: ", ")", ?_⟩
      simp [checkRotationNeeded, h1, h2, h3, h4]
  · intro h1 h2 h3 h4
    simp [checkRotationNeeded, h1, h2, h3, h4]
  · intro T hT hlast h1 hint
    have h2 : metavIsZero profile.status.lastRotation = false := by
      rw [hlast]
      simpa [metavIsZero] using hT
    have htime : metavTime profile.status.lastRotation = T := by rw [hlast]; rfl
    constructor
    · simp only [checkRotationNeeded, h1, h2, hint, htime]
      rw [if_neg (by simp [h1, h2]), if_neg (by norm_num), if_pos (by omega)]
    · simp only [checkRotationNeeded, h1, h2, hint, htime]
      rw [if_neg (by simp [h1, h2]), if_neg (by norm_num), if_neg (by omega)]

/-- Profile with a 24-hour rotation interval (in nanoseconds) and a
recorded last rotation at instant 50. -/
def fixtureProfile24h : KeyProfile :=
  { spec := { keySpec := { algorithm := "EC", params := [("curve", "P-256")],
                           allowLegacyKeySize := false }
              rotation := { interval := 24 * 3600000000000 }
              publish := [] }
    status := { currentKeyID := "k1", currentKeyFingerprint := "f1",
                lastRotation := some 50 } }

/-- Witness for C2 at concrete profiles: the no-key rule and both
concrete 24h-interval instances. -/
theorem checkRotationNeeded_spec_witness :
    checkRotationNeeded (fun _ => "") (fun _ => "") fixtureProfileNew 0 =
      (true, "initial key generation") ∧
    (checkRotationNeeded (fun _ => "") (fun _ => "") fixtureProfile24h
      (50 + 25 * 3600000000000)).1 = true ∧
    (checkRotationNeeded (fun _ => "") (fun _ => "") fixtureProfile24h
      (50 + 23 * 3600000000000)).1 = false := by
  refine ⟨(checkRotationNeeded_spec _ _ fixtureProfileNew 0).1 (Or.inl rfl), ?_, ?_⟩
  · exact ((checkRotationNeeded_spec (fun _ => "") (fun _ => "") fixtureProfile24h 0).2.2.2.2 50
      (by norm_num) rfl (by decide) (by decide)).1
  · exact ((checkRotationNeeded_spec (fun _ => "") (fun _ => "") fixtureProfile24h 0).2.2.2.2 50
      (by norm_num) rfl (by decide) (by decide)).2

/-- Failure message recorded for the target at index i, if it fails:
unknown publisher types and publisher errors, tagged with the target
index and type. -/
def publishFailMsg (i : Nat) (t : PublishTarget) : Option String :=
  if registeredPublisherTypes.contains t.type then
    match t.outcome with
    | .error e => some ("target[" ++ toString i ++ "] (" ++ t.type ++ ") failed: " ++ e)
    | .ok _ => none
  else some ("target[" ++ toString i ++ "]: unknown publisher type " ++ quoteStr t.type)

lemma publishLoop_characterization (ts : List PublishTarget) : ∀ i : Nat,
    (publishLoop i ts).1 = (List.enumFrom i ts).filterMap (fun p => publishFailMsg p.1 p.2) ∧
    (publishLoop i ts).2 = (List.enumFrom i ts).filterMap
      (fun p => if registeredPublisherTypes.contains p.2.type then some p.1 else none) := by
  induction ts with
  | nil => intro i; simp [publishLoop]
  | cons t rest ih =>
    intro i
    by_cases h : t.type ∈ registeredPublisherTypes
    · rcases ho : t.outcome with e | u
      · simp [publishLoop, publishFailMsg, h, ho, List.enumFrom, (ih (i + 1)).1, (ih (i + 1)).2]
      · simp [publishLoop, publishFailMsg, h, ho, List.enumFrom, (ih (i + 1)).1, (ih (i + 1)).2]
    · simp [publishLoop, publishFailMsg, h, List.enumFrom, (ih (i + 1)).1, (ih (i + 1)).2]

lemma publishLoop_errs_nil (ts : List PublishTarget) : ∀ i : Nat,
    ((publishLoop i ts).1 = [] ↔
      ∀ t ∈ ts, registeredPublisherTypes.contains t.type = true ∧ t.outcome = Except.ok ()) := by
  induction ts with
  | nil => intro i; simp [publishLoop]
  | cons t rest ih =>
    intro i
    by_cases h : t.type ∈ registeredPublisherTypes
    · rcases ho : t.outcome with e | u
      · simp [publishLoop, h, ho]
      · cases u
        simp [publishLoop, h, ho, ih (i + 1)]
    · simp [publishLoop, h]

/-- C7: PublishAll attempts every target with a registered publisher
even when earlier targets fail, returns nil exactly when every target
succeeds, and otherwise collects exactly the failing targets, each
tagged with its index and type. -/
theorem publishAll_spec (targets : List PublishTarget) :
    (PublishAll targets = .ok () ↔
      ∀ t ∈ targets, registeredPublisherTypes.contains t.type = true ∧
        t.outcome = Except.ok ()) ∧
    (publishLoop 0 targets).1 = (List.enumFrom 0 targets).filterMap
      (fun p => publishFailMsg p.1 p.2) ∧
    (publishLoop 0 targets).2 = (List.enumFrom 0 targets).filterMap
      (fun p => if registeredPublisherTypes.contains p.2.type then some p.1 else none) := by
  refine ⟨?_, (publishLoop_characterization targets 0).1,
    (publishLoop_characterization targets 0).2⟩
  rw [← publishLoop_errs_nil targets 0]
  unfold PublishAll
  by_cases h : (publishLoop 0 targets).1 = []
  · simp [h]
  · simp [h, List.isEmpty_iff]

/-- Two targets: the first fails, the second succeeds. -/
def fixtureTwoTargets : List PublishTarget :=
  [{ type := "filesystem", outcome := .error "disk full" },
   { type := "http", outcome := .ok () }]

/-- Witness for C7: with the first of two targets failing, the second
is still invoked and the error list mentions exactly the first. -/
theorem publishAll_spec_witness :
    PublishAll fixtureTwoTargets ≠ .ok () ∧
    (publishLoop 0 fixtureTwoTargets).2 = [0, 1] ∧
    (publishLoop 0 fixtureTwoTargets).1 = ["target[0] (filesystem) failed: disk full"] := by
  refine ⟨fun hok => ?_, by decide, by decide⟩
  have h := (publishAll_spec fixtureTwoTargets).1.mp hok
    { type := "filesystem", outcome := .error "disk full" } (by decide)
  exact absurd h.2 (by decide)

/-- C1: within one EnsureKey invocation that generates a key, the
persist step runs only after PublishAll has returned success (and
strictly later in the step trace); when PublishAll returns an error, the
persist step is never invoked and, whenever the invocation reached the
publish step, EnsureKey returns an error. -/
theorem ensureKey_publish_before_persist (fmtD fmtT : Int → String) (profile : KeyProfile)
    (now : Int) (genResult : Except String KeyPair) (writeResult : Except String Unit) :
    (Event.persist ∈ (EnsureKey fmtD fmtT profile now genResult writeResult).2 →
      PublishAll profile.spec.publish = .ok () ∧
      (EnsureKey fmtD fmtT profile now genResult writeResult).2.indexOf Event.publish <
        (EnsureKey fmtD fmtT profile now genResult writeResult).2.indexOf Event.persist) ∧
    (∀ e, PublishAll profile.spec.publish = .error e →
      Event.persist ∉ (EnsureKey fmtD fmtT profile now genResult writeResult).2 ∧
      (Event.publish ∈ (EnsureKey fmtD fmtT profile now genResult writeResult).2 →
        ∃ msg, (EnsureKey fmtD fmtT profile now genResult writeResult).1 = .error msg)) := by
  by_cases hc : (checkRotationNeeded fmtD fmtT profile now).1 = false
  · constructor
    · intro hmem
      simp [EnsureKey, hc] at hmem
    · intro e he
      simp [EnsureKey, hc]
  · rcases genResult with e0 | kp
    · constructor
      · intro hmem
        simp [EnsureKey, hc] at hmem
      · intro e he
        simp [EnsureKey, hc]
    · rcases hfp : ComputeFingerprint kp.publicKey with e1 | fp
      · constructor
        · intro hmem
          simp [EnsureKey, hc, hfp] at hmem
        · intro e he
          simp [EnsureKey, hc, hfp]
      · rcases hp : PublishAll profile.spec.publish with e2 | u
        · constructor
          · intro hmem
            simp [EnsureKey, hc, hfp, hp] at hmem
          · intro e he
            refine ⟨by simp [EnsureKey, hc, hfp, hp], fun _ => ?_⟩
            exact ⟨"failed to publish public key: " ++ e2, by simp [EnsureKey, hc, hfp, hp]⟩
        · cases u
          constructor
          · intro hmem
            refine ⟨rfl, ?_⟩
            rcases writeResult with e3 | u3
            · simp [EnsureKey, hc, hfp, hp, List.indexOf]
              decide
            · simp [EnsureKey, hc, hfp, hp, List.indexOf]
              decide
          · intro e he
            exact Except.noConfusion he

/-- Witness for C1: a full successful rotation at concrete inputs; the
publish step precedes the persist step in the recorded trace. -/
theorem ensureKey_publish_before_persist_witness :
    PublishAll fixtureProfileNew.spec.publish = .ok () ∧
    (EnsureKey (fun _ => "") (fun _ => "") fixtureProfileNew 0
        (.ok fixtureKeyPair) (.ok ())).2.indexOf Event.publish <
      (EnsureKey (fun _ => "") (fun _ => "") fixtureProfileNew 0
        (.ok fixtureKeyPair) (.ok ())).2.indexOf Event.persist :=
  (ensureKey_publish_before_persist (fun _ => "") (fun _ => "") fixtureProfileNew 0
    (.ok fixtureKeyPair) (.ok ())).1 (by
      have htr : (EnsureKey (fun _ => "") (fun _ => "") fixtureProfileNew 0
          (.ok fixtureKeyPair) (.ok ())).2 =
          [Event.generate, Event.publish, Event.persist, Event.wipe] := by decide
      rw [htr]
      simp)

/-- C4: for every RSA spec whose keySize parses to an integer,
ValidateKeySpec rejects sizes outside {2048, 3072, 4096}; without the
legacy opt-in it accepts exactly 3072 and 4096; 2048 is accepted only
with the opt-in and then carries at least one warning; sizes at least
3072 yield no warnings. -/
theorem validateKeySpec_rsa_spec (params : List (String × String)) (allowLegacy : Bool)
    (s : String) (k : Int) (hs : lookupParam params "keySize" = s) (hne : s ≠ "")
    (hk : atoi s = some k) :
    (¬ (k = 2048 ∨ k = 3072 ∨ k = 4096) →
      (ValidateKeySpec "RSA" params allowLegacy).2.isSome = true) ∧
    (allowLegacy = false →
      ((ValidateKeySpec "RSA" params allowLegacy).2 = none ↔ k = 3072 ∨ k = 4096)) ∧
    (k = 2048 → allowLegacy = true →
      (ValidateKeySpec "RSA" params allowLegacy).2 = none ∧
      1 ≤ (ValidateKeySpec "RSA" params allowLegacy).1.length) ∧
    (k = 2048 → allowLegacy = false →
      (ValidateKeySpec "RSA" params allowLegacy).2.isSome = true) ∧
    (3072 ≤ k → (ValidateKeySpec "RSA" params allowLegacy).1 = []) := by
  have hv : ValidateKeySpec "RSA" params allowLegacy = validateRSA params allowLegacy := by
    simp [ValidateKeySpec]
  rw [hv]
  by_cases h2048 : k = 2048
  · subst h2048
    cases allowLegacy
    · simp [validateRSA, hs, hne, hk, RSAMinKeySize, RSARecommendedMinKeySize, validRSAKeySizes]
    · simp [validateRSA, hs, hne, hk, RSAMinKeySize, RSARecommendedMinKeySize, validRSAKeySizes]
  · by_cases h3072 : k = 3072
    · subst h3072
      simp [validateRSA, hs, hne, hk, RSAMinKeySize, RSARecommendedMinKeySize, validRSAKeySizes]
    · by_cases h4096 : k = 4096
      · subst h4096
        simp [validateRSA, hs, hne, hk, RSAMinKeySize, RSARecommendedMinKeySize,
          validRSAKeySizes]
      · have hmem : ¬ k ∈ validRSAKeySizes := by
          simp [validRSAKeySizes]
          omega
        simp [validateRSA, hs, hne, hk, hmem, h2048, h3072, h4096]

/-- Witness for C4: keySize 2048 with the legacy opt-in is accepted with
a warning, without it is rejected, and keySize 4096 is accepted warning
free. -/
theorem validateKeySpec_rsa_spec_witness :
    ((ValidateKeySpec "RSA" [("keySize", "2048")] true).2 = none ∧
      1 ≤ (ValidateKeySpec "RSA" [("keySize", "2048")] true).1.length) ∧
    (ValidateKeySpec "RSA" [("keySize", "2048")] false).2.isSome = true ∧
    ((ValidateKeySpec "RSA" [("keySize", "4096")] false).2 = none ∧
      (ValidateKeySpec "RSA" [("keySize", "4096")] false).1 = []) := by
  refine ⟨?_, ?_, ?_, ?_⟩
  · exact (validateKeySpec_rsa_spec [("keySize", "2048")] true "2048" 2048
      (by decide) (by decide) (by decide)).2.2.1 rfl rfl
  · exact (validateKeySpec_rsa_spec [("keySize", "2048")] false "2048" 2048
      (by decide) (by decide) (by decide)).2.2.2.1 rfl rfl
  · exact ((validateKeySpec_rsa_spec [("keySize", "4096")] false "4096" 4096
      (by decide) (by decide) (by decide)).2.1 rfl).mpr (Or.inr rfl)
  · exact (validateKeySpec_rsa_spec [("keySize", "4096")] false "4096" 4096
      (by decide) (by decide) (by decide)).2.2.2.2 (by norm_num)

end OpenUKR
